import Mathlib

/-!
Shallow embedding of the VRM "Hide Material as Blend Shape" Blender addon
(`src/vrm_hidematblenshape.py`).

The addon has two operations:
* `sync_material_list` / `SyncMaterialsOperator.execute` — "Refresh": rebuilds the
  per-object material selector from the mesh's material slot list;
* `CreateHideOperator.execute` — "Generate": computes the set of vertices touched by
  faces of the checked materials, shrinks them toward a center, and commits the
  original/shrunk positions as a "Basis" / named shape-key pair.

Positions (`mathutils.Vector`) are embedded as triples of rationals; material
identities as natural numbers; a material slot may be empty (`Option`).  Blender's
in-place mutation of the object is embedded as explicit state passing: each operator
returns its report status together with the final object state.
-/

/-- A 3D vector with rational coordinates, embedding `mathutils.Vector`. -/
@[ext]
structure Vec3 where
  x : ℚ
  y : ℚ
  z : ℚ
  deriving DecidableEq, Repr

instance : Add Vec3 := ⟨fun a b => ⟨a.x + b.x, a.y + b.y, a.z + b.z⟩⟩

instance : Sub Vec3 := ⟨fun a b => ⟨a.x - b.x, a.y - b.y, a.z - b.z⟩⟩

instance : Zero Vec3 := ⟨⟨0, 0, 0⟩⟩

/-- `Vector * float` componentwise scaling, as in `direction * factor`. -/
instance : HMul Vec3 ℚ Vec3 := ⟨fun a c => ⟨a.x * c, a.y * c, a.z * c⟩⟩

/-- `Vector / float` componentwise division, as in `sum(...) / len(...)`. -/
instance : HDiv Vec3 ℚ Vec3 := ⟨fun a c => ⟨a.x / c, a.y / c, a.z / c⟩⟩

@[simp] theorem Vec3.add_x (a b : Vec3) : (a + b).x = a.x + b.x := rfl

@[simp] theorem Vec3.add_y (a b : Vec3) : (a + b).y = a.y + b.y := rfl

@[simp] theorem Vec3.add_z (a b : Vec3) : (a + b).z = a.z + b.z := rfl

@[simp] theorem Vec3.sub_x (a b : Vec3) : (a - b).x = a.x - b.x := rfl

@[simp] theorem Vec3.sub_y (a b : Vec3) : (a - b).y = a.y - b.y := rfl

@[simp] theorem Vec3.sub_z (a b : Vec3) : (a - b).z = a.z - b.z := rfl

@[simp] theorem Vec3.mul_x (a : Vec3) (c : ℚ) : (a * c).x = a.x * c := rfl

@[simp] theorem Vec3.mul_y (a : Vec3) (c : ℚ) : (a * c).y = a.y * c := rfl

@[simp] theorem Vec3.mul_z (a : Vec3) (c : ℚ) : (a * c).z = a.z * c := rfl

@[simp] theorem Vec3.div_x (a : Vec3) (c : ℚ) : (a / c).x = a.x / c := rfl

@[simp] theorem Vec3.div_y (a : Vec3) (c : ℚ) : (a / c).y = a.y / c := rfl

@[simp] theorem Vec3.div_z (a : Vec3) (c : ℚ) : (a / c).z = a.z / c := rfl

@[simp] theorem Vec3.zero_x : (0 : Vec3).x = 0 := rfl

@[simp] theorem Vec3.zero_y : (0 : Vec3).y = 0 := rfl

@[simp] theorem Vec3.zero_z : (0 : Vec3).z = 0 := rfl

@[simp] theorem Vec3.mk_add_mk (a b c d e f : ℚ) :
    (⟨a, b, c⟩ : Vec3) + ⟨d, e, f⟩ = ⟨a + d, b + e, c + f⟩ := rfl

@[simp] theorem Vec3.mk_sub_mk (a b c d e f : ℚ) :
    (⟨a, b, c⟩ : Vec3) - ⟨d, e, f⟩ = ⟨a - d, b - e, c - f⟩ := rfl

@[simp] theorem Vec3.mk_mul (a b c q : ℚ) : (⟨a, b, c⟩ : Vec3) * q = ⟨a * q, b * q, c * q⟩ :=
  rfl

@[simp] theorem Vec3.mk_div (a b c q : ℚ) : (⟨a, b, c⟩ : Vec3) / q = ⟨a / q, b / q, c / q⟩ :=
  rfl

instance : AddCommMonoid Vec3 where
  add := (· + ·)
  zero := 0
  add_assoc a b c := by ext <;> simp <;> ring
  zero_add a := by ext <;> simp
  add_zero a := by ext <;> simp
  add_comm a b := by ext <;> simp <;> ring
  nsmul := nsmulRec

/-- A mesh face: its material slot index (`face.material_index`) and the indices of
its vertices (`face.verts`). -/
structure Face where
  material_index : ℕ
  verts : List ℕ
  deriving DecidableEq, Repr

/-- A shape key: name, stored per-vertex positions, and blend value.
`shape_key_add` captures the mesh's current live positions as `data`; a freshly
created key has value `0`. -/
structure ShapeKey where
  name : String
  data : List Vec3
  value : ℚ
  deriving DecidableEq, Repr

/-- Mesh data (`obj.data`): vertex positions, faces, the material slot list (a slot
may be empty), and the shape-key collection (`[]` embeds `shape_keys == None`). -/
structure MeshData where
  vertices : List Vec3
  faces : List Face
  materials : List (Option ℕ)
  shapeKeys : List ShapeKey
  deriving DecidableEq, Repr

/-- One selector entry (`VRMHideMaterialItem`): a possibly-null material pointer and
the "Use for Hide" checkbox. -/
structure HideMaterialItem where
  material : Option ℕ
  use_hide : Bool
  deriving DecidableEq, Repr

inductive ObjType
  | MESH
  | OTHER
  deriving DecidableEq, Repr

/-- A scene object: its type, mesh data, and the per-object selector collection
(`obj.vrm_hide_materials`). -/
structure Obj where
  type : ObjType
  data : MeshData
  vrm_hide_materials : List HideMaterialItem
  deriving DecidableEq, Repr

/-- `sync_material_list`'s mutation on a mesh object: clear `vrm_hide_materials`,
then for every non-null material in slot order append `{material, use_hide = True}`. -/
def syncCore (o : Obj) : Obj :=
  { o with vrm_hide_materials :=
      o.data.materials.filterMap fun m =>
        m.map fun mat => { material := some mat, use_hide := true } }

/-- `sync_material_list(obj)`: returns with no mutation when `obj` is missing or not
a mesh, otherwise rebuilds the selector. -/
def sync_material_list (obj : Option Obj) : Option Obj :=
  match obj with
  | none => none
  | some o => if o.type ≠ ObjType.MESH then some o else some (syncCore o)

inductive SyncStatus
  | FINISHED (count : ℕ)
  | CANCELLED
  deriving DecidableEq, Repr

/-- `SyncMaterialsOperator.execute`: error on a missing/non-mesh target, otherwise
refresh the selector and report the number of materials found. -/
def SyncMaterialsOperator.execute (active_object : Option Obj) : SyncStatus × Option Obj :=
  match active_object with
  | none => (SyncStatus.CANCELLED, none)
  | some o =>
    if o.type ≠ ObjType.MESH then (SyncStatus.CANCELLED, some o)
    else (SyncStatus.FINISHED (syncCore o).vrm_hide_materials.length, some (syncCore o))

/-- Embedding of Python's `str.strip()` (no argument): remove leading and trailing
whitespace. -/
def pyStrip (s : String) : String :=
  String.mk ((s.data.dropWhile Char.isWhitespace).reverse.dropWhile
    Char.isWhitespace).reverse

/-- `checked_indices`: positions `i` of selector entries with `use_hide` set and a
non-null material. -/
def checked_indices (items : List HideMaterialItem) : List ℕ :=
  (items.enum.filter fun p => p.2.use_hide && p.2.material.isSome).map Prod.fst

/-- `affected_verts`: fold over the faces, adding every vertex index of each face
whose material slot index is checked. -/
def affected_verts (faces : List Face) (checked : List ℕ) : Finset ℕ :=
  faces.foldl
    (fun s f => if f.material_index ∈ checked then s ∪ f.verts.toFinset else s) ∅

inductive CenterMode
  | CENTROID
  | ORIGIN
  deriving DecidableEq, Repr

/-- The shrink center: `sum(aff_cos, Vector()) / len(aff_cos)` over the affected
set in `CENTROID` mode, `Vector((0, 0, 0))` in `ORIGIN` mode. -/
def computeCenter (orig : List Vec3) (affected : Finset ℕ) (mode : CenterMode) : Vec3 :=
  match mode with
  | CenterMode.CENTROID => (∑ i ∈ affected, orig.getD i 0) / (affected.card : ℚ)
  | CenterMode.ORIGIN => ⟨0, 0, 0⟩

/-- `shrunk_cos`: a copy of `orig_cos` with `shrunk_cos[i] = center + (orig_cos[i] -
center) * factor` at each affected `i` — the elementwise form of the source's
copy-then-update loop. -/
def shrunk_cos (orig : List Vec3) (affected : Finset ℕ) (center : Vec3) (factor : ℚ) :
    List Vec3 :=
  (List.range orig.length).map fun i =>
    if i ∈ affected then center + (orig.getD i 0 - center) * factor else orig.getD i 0

inductive GenError
  | NotAMeshError
  | ExistingShapeKeysError
  | NoMaterialsSelectedError
  | NoAffectedVerticesError
  deriving DecidableEq, Repr

inductive OpStatus
  | FINISHED
  | CANCELLED (err : GenError)
  deriving DecidableEq, Repr

structure GenResult where
  status : OpStatus
  obj : Option Obj
  deriving DecidableEq, Repr

/-- `CreateHideOperator.execute`: the Generate operation.  Precondition checks in
source order, then: snapshot `orig_cos`, compute center and shrunk positions, add
the "Basis" key (capturing the live = original positions), write the shrunk
positions into the live buffer, add the named key (capturing the live = shrunk
positions, value `0.0`), and restore the original positions. -/
def CreateHideOperator.execute (active_object : Option Obj) (hide_shape_key_name : String)
    (hide_shrink_factor : ℚ) (hide_shrink_center : CenterMode) : GenResult :=
  match active_object with
  | none => ⟨OpStatus.CANCELLED GenError.NotAMeshError, none⟩
  | some o =>
    if o.type ≠ ObjType.MESH then ⟨OpStatus.CANCELLED GenError.NotAMeshError, some o⟩
    else if o.data.shapeKeys ≠ [] then
      ⟨OpStatus.CANCELLED GenError.ExistingShapeKeysError, some o⟩
    else
      let checked := checked_indices o.vrm_hide_materials
      if checked = [] then ⟨OpStatus.CANCELLED GenError.NoMaterialsSelectedError, some o⟩
      else
        let key_name :=
          if pyStrip hide_shape_key_name = "" then "Hidden"
          else pyStrip hide_shape_key_name
        let factor := hide_shrink_factor
        let affected := affected_verts o.data.faces checked
        if affected = (∅ : Finset ℕ) then
          ⟨OpStatus.CANCELLED GenError.NoAffectedVerticesError, some o⟩
        else
          let orig_cos := o.data.vertices
          let center := computeCenter orig_cos affected hide_shrink_center
          let shrunk := shrunk_cos orig_cos affected center factor
          let m1 : MeshData :=
            { o.data with shapeKeys := o.data.shapeKeys ++ [⟨"Basis", o.data.vertices, 0⟩] }
          let m2 : MeshData := { m1 with vertices := shrunk }
          let m3 : MeshData :=
            { m2 with shapeKeys := m2.shapeKeys ++ [⟨key_name, m2.vertices, 0⟩] }
          let m4 : MeshData := { m3 with vertices := orig_cos }
          ⟨OpStatus.FINISHED, some { o with data := m4 }⟩

/-- The live vertex positions of an (optional) object. -/
def objLiveVertices : Option Obj → List Vec3
  | none => []
  | some o => o.data.vertices

/-- The shape keys of an (optional) object. -/
def objShapeKeys : Option Obj → List ShapeKey
  | none => []
  | some o => o.data.shapeKeys

/-- Modelled from the spec: the user toggling the "Use for Hide" checkboxes in the
panel after a refresh — entry `i` of the selector gets flag `flags i`; nothing else
changes. -/
def setFlags : List HideMaterialItem → (ℕ → Bool) → List HideMaterialItem
  | [], _ => []
  | it :: its, flags => { it with use_hide := flags 0 } :: setFlags its fun i => flags (i + 1)

/-- The selector collection of an (optional) object. -/
def objSelector : Option Obj → List HideMaterialItem
  | none => []
  | some o => o.vrm_hide_materials

/-- A triangle mesh: three vertices, one face on material slot 0. -/
def meshData0 : MeshData :=
  { vertices := [⟨0, 0, 0⟩, ⟨2, 0, 0⟩, ⟨0, 2, 0⟩],
    faces := [⟨0, [0, 1, 2]⟩],
    materials := [some 0],
    shapeKeys := [] }

/-- A well-formed mesh object with the single material checked. -/
def testObj : Obj :=
  { type := ObjType.MESH, data := meshData0,
    vrm_hide_materials := [⟨some 0, true⟩] }

/-- A non-mesh object. -/
def nonMeshObj : Obj :=
  { type := ObjType.OTHER, data := meshData0,
    vrm_hide_materials := [⟨some 0, true⟩] }

/-- A mesh object that already carries a shape key. -/
def keyedObj : Obj :=
  { type := ObjType.MESH,
    data := { meshData0 with shapeKeys := [⟨"Key", [⟨0, 0, 0⟩, ⟨2, 0, 0⟩, ⟨0, 2, 0⟩], 0⟩] },
    vrm_hide_materials := [⟨some 0, true⟩] }

/-- A mesh object whose only selector entry is unchecked. -/
def uncheckedObj : Obj :=
  { type := ObjType.MESH, data := meshData0,
    vrm_hide_materials := [⟨some 0, false⟩] }

/-- A mesh object whose single face sits on an unchecked slot, so no vertex
qualifies. -/
def orphanObj : Obj :=
  { type := ObjType.MESH,
    data := { meshData0 with faces := [⟨1, [0, 1, 2]⟩] },
    vrm_hide_materials := [⟨some 0, true⟩] }

/-- A mesh object with two filled material slots and an empty selector. -/
def matObj : Obj :=
  { type := ObjType.MESH,
    data := { vertices := [], faces := [], materials := [some 5, some 7], shapeKeys := [] },
    vrm_hide_materials := [] }

/-- A mesh object with no material slots at all. -/
def emptyMatsObj : Obj :=
  { type := ObjType.MESH,
    data := { vertices := [], faces := [], materials := [], shapeKeys := [] },
    vrm_hide_materials := [⟨some 3, true⟩] }

/-! ## Helper lemmas -/

theorem shrunk_cos_length (orig : List Vec3) (affected : Finset ℕ) (center : Vec3)
    (factor : ℚ) : (shrunk_cos orig affected center factor).length = orig.length := by
  simp [shrunk_cos]

theorem shrunk_cos_getD (orig : List Vec3) (affected : Finset ℕ) (center : Vec3)
    (factor : ℚ) (i : ℕ) (h : i < orig.length) :
    (shrunk_cos orig affected center factor).getD i 0 =
      if i ∈ affected then center + (orig.getD i 0 - center) * factor
      else orig.getD i 0 := by
  have h' : i < (shrunk_cos orig affected center factor).length := by
    simpa [shrunk_cos_length] using h
  rw [List.getD_eq_getElem _ _ h']
  simp [shrunk_cos, h]

theorem mem_foldl_affected (faces : List Face) (checked : List ℕ) (s : Finset ℕ) (i : ℕ) :
    (i ∈ faces.foldl
        (fun s f => if f.material_index ∈ checked then s ∪ f.verts.toFinset else s) s) ↔
      i ∈ s ∨ ∃ f ∈ faces, f.material_index ∈ checked ∧ i ∈ f.verts := by
  induction faces generalizing s with
  | nil => simp
  | cons f fs ih =>
    rw [List.foldl_cons, ih]
    by_cases h : f.material_index ∈ checked <;> simp [h] <;> tauto

/-! ## Claims -/

/-- C1: whenever Generate reaches the shrink computation, `ShrunkPositions` is a
copy of `OriginalPositions` in which each affected vertex `i` holds
`Center + (OriginalPositions[i] - Center) * shrinkFactor` and each unaffected
vertex holds exactly its original position. -/
theorem shrunk_positions_spec (orig : List Vec3) (affected : Finset ℕ) (center : Vec3)
    (factor : ℚ) :
    (shrunk_cos orig affected center factor).length = orig.length ∧
    ∀ i, i < orig.length →
      (i ∈ affected →
        (shrunk_cos orig affected center factor).getD i 0 =
          center + (orig.getD i 0 - center) * factor) ∧
      (i ∉ affected →
        (shrunk_cos orig affected center factor).getD i 0 = orig.getD i 0) := by
  refine ⟨shrunk_cos_length orig affected center factor, fun i hi => ⟨fun hmem => ?_, fun hmem => ?_⟩⟩
  · rw [shrunk_cos_getD orig affected center factor i hi, if_pos hmem]
  · rw [shrunk_cos_getD orig affected center factor i hi, if_neg hmem]

/-- C1 witness at a concrete two-vertex list with vertex 0 affected. -/
theorem shrunk_positions_spec_witness :
    (shrunk_cos [⟨1, 2, 3⟩, ⟨4, 5, 6⟩] {0} ⟨0, 0, 0⟩ (1/2)).getD 0 0 =
      (⟨0, 0, 0⟩ : Vec3) +
        (List.getD ([⟨1, 2, 3⟩, ⟨4, 5, 6⟩] : List Vec3) 0 0 - ⟨0, 0, 0⟩) * ((1 : ℚ)/2) ∧
    (shrunk_cos [⟨1, 2, 3⟩, ⟨4, 5, 6⟩] {0} ⟨0, 0, 0⟩ (1/2)).getD 1 0 =
      List.getD ([⟨1, 2, 3⟩, ⟨4, 5, 6⟩] : List Vec3) 1 0 := by
  have h := shrunk_positions_spec [⟨1, 2, 3⟩, ⟨4, 5, 6⟩] {0} ⟨0, 0, 0⟩ (1/2)
  exact ⟨(h.2 0 (by decide)).1 (by decide), (h.2 1 (by decide)).2 (by decide)⟩

/-- C2: Generate leaves the live vertex positions of the target object exactly as
they were at entry, on every path (success or any precondition failure). -/
theorem live_positions_restored (obj : Option Obj) (n : String) (f : ℚ) (m : CenterMode) :
    objLiveVertices (CreateHideOperator.execute obj n f m).obj = objLiveVertices obj := by
  cases obj with
  | none => rfl
  | some o =>
    simp only [CreateHideOperator.execute]
    split_ifs <;> rfl

/-- C3: a vertex index is in `AffectedVertices` iff it belongs to some face whose
material slot index is checked. -/
theorem affected_vertices_characterization (faces : List Face) (checked : List ℕ) (i : ℕ) :
    i ∈ affected_verts faces checked ↔
      ∃ f ∈ faces, f.material_index ∈ checked ∧ i ∈ f.verts := by
  unfold affected_verts
  rw [mem_foldl_affected]
  simp

/-- C7: at `shrinkFactor = 1` the shrink computation is the identity on the whole
position list; at `shrinkFactor = 0` every affected vertex lands exactly on the
center. -/
theorem shrink_factor_endpoints (orig : List Vec3) (affected : Finset ℕ) (center : Vec3) :
    shrunk_cos orig affected center 1 = orig ∧
    ∀ i, i ∈ affected → i < orig.length →
      (shrunk_cos orig affected center 0).getD i 0 = center := by
  constructor
  · apply List.ext_getElem (shrunk_cos_length orig affected center 1)
    intro i h1 h2
    rw [← List.getD_eq_getElem (shrunk_cos orig affected center 1) 0 h1,
      ← List.getD_eq_getElem orig 0 h2, shrunk_cos_getD orig affected center 1 i h2]
    split
    · ext <;> simp
    · rfl
  · intro i hmem hlen
    rw [shrunk_cos_getD orig affected center 0 i hlen, if_pos hmem]
    ext <;> simp

/-- C7 witness on a one-vertex list with vertex 0 affected. -/
theorem shrink_factor_endpoints_witness :
    shrunk_cos [⟨1, 2, 3⟩] {0} ⟨5, 5, 5⟩ 1 = [⟨1, 2, 3⟩] ∧
    (shrunk_cos [⟨1, 2, 3⟩] {0} ⟨5, 5, 5⟩ 0).getD 0 0 = ⟨5, 5, 5⟩ := by
  have h := shrink_factor_endpoints [⟨1, 2, 3⟩] {0} ⟨5, 5, 5⟩
  exact ⟨h.1, h.2 0 (by decide) (by decide)⟩

/-- C4: each precondition failure of Generate — missing/non-mesh target, existing
shape keys, no checked material, no affected vertex — returns the corresponding
error with the object completely unchanged. -/
theorem generate_precondition_errors (o : Obj) (n : String) (f : ℚ) (m : CenterMode) :
    (CreateHideOperator.execute none n f m =
      ⟨OpStatus.CANCELLED GenError.NotAMeshError, none⟩) ∧
    (o.type ≠ ObjType.MESH →
      CreateHideOperator.execute (some o) n f m =
        ⟨OpStatus.CANCELLED GenError.NotAMeshError, some o⟩) ∧
    (o.type = ObjType.MESH → o.data.shapeKeys ≠ [] →
      CreateHideOperator.execute (some o) n f m =
        ⟨OpStatus.CANCELLED GenError.ExistingShapeKeysError, some o⟩) ∧
    (o.type = ObjType.MESH → o.data.shapeKeys = [] →
      checked_indices o.vrm_hide_materials = [] →
      CreateHideOperator.execute (some o) n f m =
        ⟨OpStatus.CANCELLED GenError.NoMaterialsSelectedError, some o⟩) ∧
    (o.type = ObjType.MESH → o.data.shapeKeys = [] →
      checked_indices o.vrm_hide_materials ≠ [] →
      affected_verts o.data.faces (checked_indices o.vrm_hide_materials) = ∅ →
      CreateHideOperator.execute (some o) n f m =
        ⟨OpStatus.CANCELLED GenError.NoAffectedVerticesError, some o⟩) ∧
    (∀ e : GenError, (CreateHideOperator.execute (some o) n f m).status =
        OpStatus.CANCELLED e →
      (CreateHideOperator.execute (some o) n f m).obj = some o) := by
  refine ⟨rfl, fun h1 => ?_, fun h1 h2 => ?_, fun h1 h2 h3 => ?_, fun h1 h2 h3 h4 => ?_,
    fun e he => ?_⟩
  · simp [CreateHideOperator.execute, h1]
  · simp [CreateHideOperator.execute, h1, h2]
  · simp [CreateHideOperator.execute, h1, h2, h3]
  · simp [CreateHideOperator.execute, h1, h2, h3, h4]
  · simp only [CreateHideOperator.execute] at he ⊢
    split_ifs at he ⊢ <;> simp_all

/-- C4 witness: all four failures, each at a concrete object, each with the state
unchanged. -/
theorem generate_precondition_errors_witness :
    (CreateHideOperator.execute none "X" 0 CenterMode.ORIGIN =
      ⟨OpStatus.CANCELLED GenError.NotAMeshError, none⟩) ∧
    (CreateHideOperator.execute (some nonMeshObj) "X" 0 CenterMode.ORIGIN =
      ⟨OpStatus.CANCELLED GenError.NotAMeshError, some nonMeshObj⟩) ∧
    (CreateHideOperator.execute (some keyedObj) "X" 0 CenterMode.ORIGIN =
      ⟨OpStatus.CANCELLED GenError.ExistingShapeKeysError, some keyedObj⟩) ∧
    (CreateHideOperator.execute (some uncheckedObj) "X" 0 CenterMode.ORIGIN =
      ⟨OpStatus.CANCELLED GenError.NoMaterialsSelectedError, some uncheckedObj⟩) ∧
    (CreateHideOperator.execute (some orphanObj) "X" 0 CenterMode.ORIGIN =
      ⟨OpStatus.CANCELLED GenError.NoAffectedVerticesError, some orphanObj⟩) := by
  refine ⟨(generate_precondition_errors nonMeshObj "X" 0 CenterMode.ORIGIN).1,
    (generate_precondition_errors nonMeshObj "X" 0 CenterMode.ORIGIN).2.1 (by decide),
    (generate_precondition_errors keyedObj "X" 0 CenterMode.ORIGIN).2.2.1 (by decide)
      (by decide),
    (generate_precondition_errors uncheckedObj "X" 0 CenterMode.ORIGIN).2.2.2.1 (by decide)
      (by decide) (by decide),
    (generate_precondition_errors orphanObj "X" 0 CenterMode.ORIGIN).2.2.2.2.1 (by decide)
      (by decide) (by decide) (by decide)⟩

/-- C5 counterexample to the claim as stated: for `keyName = " Foo "` (neither
empty nor whitespace after trimming) the generated target key is named `"Foo"`,
not `keyName`. -/
theorem target_key_name_counterexample :
    pyStrip " Foo " ≠ "" ∧
    (CreateHideOperator.execute (some testObj) " Foo " 0 CenterMode.ORIGIN).status =
      OpStatus.FINISHED ∧
    ((objShapeKeys (CreateHideOperator.execute (some testObj) " Foo " 0
        CenterMode.ORIGIN).obj).getD 1 ⟨"", [], 0⟩).name = "Foo" ∧
    ((objShapeKeys (CreateHideOperator.execute (some testObj) " Foo " 0
        CenterMode.ORIGIN).obj).getD 1 ⟨"", [], 0⟩).name ≠ " Foo " := by
  decide

/-- C5 (amended): after a successful Generate the object carries exactly two shape
keys — "Basis" holding the original positions and a target key holding
`ShrunkPositions` with value `0`, named with the trimmed `keyName` (the literal
"Hidden" when the trimmed name is empty). -/
theorem generate_success_postcondition (o : Obj) (n : String) (f : ℚ) (m : CenterMode)
    (h : (CreateHideOperator.execute (some o) n f m).status = OpStatus.FINISHED) :
    objShapeKeys (CreateHideOperator.execute (some o) n f m).obj =
      [⟨"Basis", o.data.vertices, 0⟩,
       ⟨if pyStrip n = "" then "Hidden" else pyStrip n,
        shrunk_cos o.data.vertices
          (affected_verts o.data.faces (checked_indices o.vrm_hide_materials))
          (computeCenter o.data.vertices
            (affected_verts o.data.faces (checked_indices o.vrm_hide_materials)) m)
          f,
        0⟩] := by
  simp only [CreateHideOperator.execute] at h ⊢
  split_ifs at h ⊢ with h1 h2 h3 h4 <;> simp_all [objShapeKeys]

/-- C5 witness: a concrete successful run on the triangle object. -/
theorem generate_success_postcondition_witness :
    objShapeKeys (CreateHideOperator.execute (some testObj) "" 0 CenterMode.ORIGIN).obj =
      [⟨"Basis", [⟨0, 0, 0⟩, ⟨2, 0, 0⟩, ⟨0, 2, 0⟩], 0⟩,
       ⟨"Hidden", [⟨0, 0, 0⟩, ⟨0, 0, 0⟩, ⟨0, 0, 0⟩], 0⟩] := by
  have h := generate_success_postcondition testObj "" 0 CenterMode.ORIGIN (by decide)
  refine h.trans ?_
  have ha : affected_verts testObj.data.faces (checked_indices testObj.vrm_hide_materials) =
      {0, 1, 2} := by decide
  rw [ha]
  norm_num [testObj, meshData0, computeCenter, shrunk_cos, List.range_succ, pyStrip]

/-- C6: in `CENTROID` mode (with a non-empty affected set) the center is the
arithmetic mean of the affected original positions — the affected-position sum
divided by the size of the affected set; in `ORIGIN` mode it is the zero vector. -/
theorem center_computation_spec (orig : List Vec3) (affected : Finset ℕ)
    (h : affected.Nonempty) :
    computeCenter orig affected CenterMode.CENTROID =
      (∑ i ∈ affected, orig.getD i 0) / (affected.card : ℚ) ∧
    computeCenter orig affected CenterMode.CENTROID * (affected.card : ℚ) =
      ∑ i ∈ affected, orig.getD i 0 ∧
    computeCenter orig affected CenterMode.ORIGIN = 0 := by
  have hc : (affected.card : ℚ) ≠ 0 :=
    Nat.cast_ne_zero.mpr (Finset.card_ne_zero.mpr h)
  refine ⟨rfl, ?_, rfl⟩
  ext <;> simp [computeCenter] <;> field_simp

/-- C6 witness: centroid of two concrete affected vertices. -/
theorem center_computation_spec_witness :
    computeCenter [⟨0, 0, 0⟩, ⟨2, 4, 6⟩] {0, 1} CenterMode.CENTROID = ⟨1, 2, 3⟩ ∧
    computeCenter [⟨0, 0, 0⟩, ⟨2, 4, 6⟩] {0, 1} CenterMode.ORIGIN = 0 := by
  have h := center_computation_spec [⟨0, 0, 0⟩, ⟨2, 4, 6⟩] {0, 1} ⟨0, by decide⟩
  refine ⟨h.1.trans ?_, h.2.2⟩
  rw [Finset.sum_pair (by decide : (0 : ℕ) ≠ 1),
    (by decide : ({0, 1} : Finset ℕ).card = 2)]
  norm_num [List.getD]

theorem setFlags_getElem? (items : List HideMaterialItem) (flags : ℕ → Bool) (k : ℕ) :
    (setFlags items flags)[k]? = items[k]?.map fun it => { it with use_hide := flags k } := by
  induction items generalizing flags k with
  | nil => simp [setFlags]
  | cons it its ih =>
    cases k with
    | zero => simp [setFlags]
    | succ j => simpa [setFlags] using ih (fun i => flags (i + 1)) j

theorem mem_checked_indices (items : List HideMaterialItem) (k : ℕ) :
    k ∈ checked_indices items ↔
      ∃ it, items[k]? = some it ∧ it.use_hide = true ∧ it.material ≠ none := by
  unfold checked_indices
  constructor
  · intro hk
    rcases List.mem_map.mp hk with ⟨p, hp, rfl⟩
    rcases List.mem_filter.mp hp with ⟨hpe, hpred⟩
    simp only [Bool.and_eq_true] at hpred
    exact ⟨p.2, List.mem_enum_iff_getElem?.mp hpe, hpred.1,
      Option.isSome_iff_ne_none.mp hpred.2⟩
  · rintro ⟨it, hit, hu, hmat⟩
    exact List.mem_map.mpr ⟨(k, it),
      List.mem_filter.mpr ⟨List.mem_enum_iff_getElem?.mpr hit,
        by simp [hu, Option.isSome_iff_ne_none.mpr hmat]⟩, rfl⟩

theorem selector_allSome (mats : List (Option ℕ)) (h : ∀ m ∈ mats, m ≠ none) :
    (mats.filterMap fun m => m.map fun mat =>
        ({ material := some mat, use_hide := true } : HideMaterialItem)) =
      mats.map fun m => { material := m, use_hide := true } := by
  induction mats with
  | nil => rfl
  | cons m ms ih =>
    cases m with
    | none => exact absurd rfl (h none (by simp))
    | some a =>
      simp only [List.filterMap_cons, Option.map_some', List.map_cons]
      exact congrArg _ (ih fun x hx => h x (by simp [hx]))

/-- C8: after a Refresh of a mesh whose slot list has no null slots, the selector is
positionally aligned with the slots; for any subsequent checkbox assignment the
checked index set is exactly the set of slot indices whose checkbox is on, and
entry `k`'s material is slot `k`'s material. -/
theorem checked_indices_alignment (o : Obj) (flags : ℕ → Bool)
    (hm : o.type = ObjType.MESH) (hnn : ∀ m ∈ o.data.materials, m ≠ none) :
    (∀ k, k ∈ checked_indices (setFlags (objSelector (sync_material_list (some o))) flags) ↔
      k < o.data.materials.length ∧ flags k = true) ∧
    (∀ k it, (setFlags (objSelector (sync_material_list (some o))) flags)[k]? = some it →
      it.material = o.data.materials.getD k none) := by
  have hsync : sync_material_list (some o) = some (syncCore o) := by
    simp [sync_material_list, hm]
  have hsel : objSelector (sync_material_list (some o)) =
      o.data.materials.map fun m => { material := m, use_hide := true } := by
    rw [hsync]
    simpa [objSelector, syncCore] using selector_allSome o.data.materials hnn
  rw [hsel]
  constructor
  · intro k
    rw [mem_checked_indices]
    constructor
    · rintro ⟨it, hit, hu, hmat⟩
      rw [setFlags_getElem?, List.getElem?_map] at hit
      cases hmk : o.data.materials[k]? with
      | none => rw [hmk] at hit; simp at hit
      | some m =>
        rw [hmk] at hit
        simp only [Option.map_some', Option.some.injEq] at hit
        have hk : k < o.data.materials.length := by
          by_contra hge
          rw [List.getElem?_eq_none (Nat.le_of_not_lt hge)] at hmk
          exact Option.noConfusion hmk
        subst hit
        exact ⟨hk, hu⟩
    · rintro ⟨hk, hf⟩
      refine ⟨{ material := o.data.materials.get ⟨k, hk⟩, use_hide := flags k }, ?_, hf, ?_⟩
      · rw [setFlags_getElem?, List.getElem?_map, List.getElem?_eq_getElem hk]
        rfl
      · exact hnn _ (List.get_mem _ _ hk)
  · intro k it hit
    rw [setFlags_getElem?, List.getElem?_map] at hit
    cases hmk : o.data.materials[k]? with
    | none => rw [hmk] at hit; exact Option.noConfusion hit
    | some m =>
      rw [hmk] at hit
      simp only [Option.map_some', Option.some.injEq] at hit
      rw [List.getD_eq_getElem?_getD, hmk, ← hit]
      rfl

/-- C8 witness: two filled slots, refreshed, then only the second box checked. -/
theorem checked_indices_alignment_witness :
    (1 ∈ checked_indices (setFlags (objSelector (sync_material_list (some matObj)))
        fun i => i == 1) ↔
      1 < matObj.data.materials.length ∧ (1 == 1) = true) ∧
    (0 ∈ checked_indices (setFlags (objSelector (sync_material_list (some matObj)))
        fun i => i == 1) ↔
      0 < matObj.data.materials.length ∧ (0 == 1) = true) := by
  have h := checked_indices_alignment matObj (fun i => i == 1) rfl (by decide)
  exact ⟨h.1 1, h.1 0⟩

/-- C9: Refresh on a mesh discards the previous selector and installs, in slot
order, one all-checked entry per non-null material (null slots are skipped); a mesh
with zero materials yields an empty selector and the operator still succeeds. -/
theorem refresh_spec (o : Obj) (hm : o.type = ObjType.MESH) :
    ((objSelector (sync_material_list (some o))).map (fun it => it.material) =
      o.data.materials.filter Option.isSome) ∧
    (∀ it ∈ objSelector (sync_material_list (some o)), it.use_hide = true) ∧
    (∀ old, sync_material_list (some { o with vrm_hide_materials := old }) =
      sync_material_list (some o)) ∧
    (o.data.materials = [] →
      SyncMaterialsOperator.execute (some o) =
        (SyncStatus.FINISHED 0, some (syncCore o)) ∧
      objSelector (sync_material_list (some o)) = []) := by
  have hsync : sync_material_list (some o) = some (syncCore o) := by
    simp [sync_material_list, hm]
  refine ⟨?_, ?_, ?_, ?_⟩
  · rw [hsync]
    simp only [objSelector, syncCore]
    induction o.data.materials with
    | nil => rfl
    | cons m ms ih => cases m <;> simp [List.filterMap_cons, List.filter_cons, ih]
  · rw [hsync]
    simp only [objSelector, syncCore]
    intro it hit
    rcases List.mem_filterMap.mp hit with ⟨m, _, hfm⟩
    cases m with
    | none => exact Option.noConfusion hfm
    | some a => cases Option.some.inj hfm; rfl
  · intro old
    simp [sync_material_list, hm, syncCore]
  · intro hmats
    constructor
    · simp [SyncMaterialsOperator.execute, hm, syncCore, hmats]
    · rw [hsync]
      simp [objSelector, syncCore, hmats]

/-- C9 witness: a mesh with zero material slots refreshes to an empty selector with
a successful report. -/
theorem refresh_spec_witness :
    SyncMaterialsOperator.execute (some emptyMatsObj) =
      (SyncStatus.FINISHED 0, some (syncCore emptyMatsObj)) ∧
    objSelector (sync_material_list (some emptyMatsObj)) = [] := by
  exact (refresh_spec emptyMatsObj rfl).2.2.2 rfl

/-- C10: Refresh is idempotent — a second Refresh with no intervening slot change
reproduces exactly the same selector state, with every flag true after each call. -/
theorem refresh_idempotent (o : Obj) (hm : o.type = ObjType.MESH) :
    sync_material_list (sync_material_list (some o)) = sync_material_list (some o) ∧
    (∀ it ∈ objSelector (sync_material_list (some o)), it.use_hide = true) := by
  have hsync : sync_material_list (some o) = some (syncCore o) := by
    simp [sync_material_list, hm]
  refine ⟨?_, (refresh_spec o hm).2.1⟩
  rw [hsync]
  simp [sync_material_list, syncCore, hm]

/-- C10 witness at a concrete two-material mesh. -/
theorem refresh_idempotent_witness :
    sync_material_list (sync_material_list (some matObj)) =
      sync_material_list (some matObj) := by
  exact (refresh_idempotent matObj rfl).1
